import Mathlib

/-
  Verification of the `deepgram-mcp-server` route handler
  (src/app/[transport]/route.ts).

  The file shallowly embeds the observable behavior of the route:
  the OPTIONS pre-flight response, the `handleApiError` utility, the
  zod parameter schema of the `synthesizeSpeech` tool, and the tool
  handler itself.  The two outbound network calls (the Deepgram
  `speak.request` call and the UploadThing `uploadFiles` call) are
  modelled as explicit outcome values that parameterize the handler,
  so that the handler's response is a total function of the request
  and of what the two external services did.
-/

namespace DeepgramMcp

/-- A content block of an MCP tool result.  The route only ever emits
`text` blocks (field `text`) and `audio` blocks (fields `data` and
`mimeType`). -/
inductive ContentBlock where
  | text (text : String)
  | audio (data : String) (mimeType : String)
deriving Repr, DecidableEq

/-- The value returned by the tool handler: `{ content: [...] }`. -/
structure ToolResult where
  content : List ContentBlock
deriving Repr, DecidableEq

/-- JavaScript `x || y` on an optional string: the empty string is
falsy, so it is replaced by `y`, as is an absent (`undefined`) value. -/
def jsOr (x : Option String) (y : String) : String :=
  match x with
  | some s => if s = "" then y else s
  | none => y

/-- The `error.response` object read by `handleApiError`.
`dataMessage` models `error.response.data?.message` (it is `none` when
`data` is absent or has no `message` field); `dataStringified` models
`JSON.stringify(error.response.data)`. -/
structure ErrResponse where
  status : Nat
  dataMessage : Option String
  dataStringified : String
deriving Repr, DecidableEq

/-- The shape of an error value as inspected by `handleApiError`:
an optional `response` object, a truthy-or-not `request` field, and an
optional `message` string. -/
structure ApiError where
  response : Option ErrResponse
  request : Bool
  message : Option String
deriving Repr, DecidableEq

/-- `handleApiError` (route.ts lines 25-43).  In the source
`defaultMessage` defaults to `"API request failed"`; both call sites in
the route pass it explicitly, so it is a required argument here.
The branches follow JavaScript truthiness: `error?.response` is taken
when the `response` object is present, `error?.request` when the
`request` field is truthy, and `error?.message` only when `message` is
present and non-empty. -/
def handleApiError (error : ApiError) (defaultMessage : String) : ToolResult :=
  let errorMessage :=
    match error.response with
    | some r =>
        defaultMessage ++ ": " ++ toString r.status ++ " - " ++
          jsOr r.dataMessage r.dataStringified
    | none =>
        if error.request then
          defaultMessage ++ ": No response received"
        else
          match error.message with
          | some m => if m = "" then defaultMessage else defaultMessage ++ ": " ++ m
          | none => defaultMessage
  { content := [ .text ("## Error\n\n" ++ errorMessage) ] }

/-- The base64 alphabet character for a 6-bit value. -/
def b64Char (n : Nat) : Char :=
  "ABCDEFGHIJKLMNOPQRSTUVWXYZabcdefghijklmnopqrstuvwxyz0123456789+/".toList.getD n 'A'

/-- Standard base64 encoding with `=` padding of a byte sequence
(each element in `0..255`), as produced by `Buffer.toString("base64")`
at route.ts line 63. -/
def base64Encode : List Nat → String
  | [] => ""
  | [b1] =>
      String.mk [b64Char (b1 / 4), b64Char (b1 % 4 * 16)] ++ "=="
  | [b1, b2] =>
      String.mk [b64Char (b1 / 4), b64Char (b1 % 4 * 16 + b2 / 16),
                 b64Char (b2 % 16 * 4)] ++ "="
  | b1 :: b2 :: b3 :: rest =>
      String.mk [b64Char (b1 / 4), b64Char (b1 % 4 * 16 + b2 / 16),
                 b64Char (b2 % 16 * 4 + b3 / 64), b64Char (b3 % 64)] ++
        base64Encode rest

/-- The `data` object of one element of the array returned by
`utapi.uploadFiles`. -/
structure UploadData where
  url : String
deriving Repr, DecidableEq

/-- One element of the array returned by `utapi.uploadFiles`; its
`data` field may be absent. -/
structure UploadEntry where
  data : Option UploadData
deriving Repr, DecidableEq

/-- What the UploadThing `uploadFiles` call did: either it threw
(caught at route.ts lines 75-77) or it returned an array of entries. -/
inductive UploadOutcome where
  | throws
  | returns (entries : List UploadEntry)
deriving Repr, DecidableEq

/-- `publicUrl` (route.ts lines 70-77): initialized to `""`, and on a
successful upload set to `uploadRes[0]?.data?.url || ""`. -/
def publicUrl : UploadOutcome → String
  | .throws => ""
  | .returns entries => jsOr ((entries.head?.bind (·.data)).map (·.url)) ""

/-- What the Deepgram `speak.request` call did: either it threw an
error (caught at route.ts lines 99-101), or it returned a response
whose `result` field is falsy (`none`) or yields audio bytes. -/
inductive ProviderOutcome where
  | throws (error : ApiError)
  | returns (result : Option (List Nat))
deriving Repr, DecidableEq

/-- The content array built on the success path (route.ts lines
79-95): the audio block, the confirmation text block, and, when
`publicUrl` is truthy, the download-link text block. -/
def successContent (text : String) (bytes : List Nat) (upload : UploadOutcome) : List ContentBlock :=
  let base : List ContentBlock :=
    [ .audio (base64Encode bytes) "audio/mpeg",
      .text ("Successfully synthesized speech! Referenced text: " ++ text) ]
  let url := publicUrl upload
  if url = "" then base else base ++ [ .text ("[Download Link](" ++ url ++ ")") ]

/-- The body of the `synthesizeSpeech` handler after the provider call
returned or threw (route.ts lines 57-101). -/
def synthAfterProvider (text : String) (outcome : ProviderOutcome) (upload : UploadOutcome) : ToolResult :=
  match outcome with
  | .throws e => handleApiError e "Failed to synthesize speech"
  | .returns none =>
      handleApiError
        { response := none, request := false,
          message := some "No audio result from Deepgram." }
        "Deepgram TTS error"
  | .returns (some bytes) => { content := successContent text bytes upload }

/-- The model identifier passed to the outbound provider call:
`model || "aura-2-thalia-en"` (route.ts line 57). -/
def outboundModel (model : Option String) : String :=
  jsOr model "aura-2-thalia-en"

/-- The `synthesizeSpeech` tool handler (route.ts lines 55-102),
parameterized by the provider (a function from the text and the model
identifier actually sent to its outcome) and the upload outcome. -/
def synthesizeSpeech (text : String) (model : Option String)
    (provider : String → String → ProviderOutcome) (upload : UploadOutcome) : ToolResult :=
  synthAfterProvider text (provider text (outboundModel model)) upload

/-- A primitive JSON value, for modelling the zod schema check. -/
inductive JsonPrim where
  | str (s : String)
  | num (n : Int)
  | bool (b : Bool)
  | null
deriving Repr, DecidableEq

/-- The raw parameter object of a tool call before validation; `none`
means the field is absent. -/
structure RawRequest where
  text : Option JsonPrim
  model : Option JsonPrim
deriving Repr, DecidableEq

/-- A validated request. -/
structure SynthesisRequest where
  text : String
  model : Option String
deriving Repr, DecidableEq

/-- The zod schema of the tool (route.ts lines 51-54):
`text: z.string()` requires `text` to be present and a string;
`model: z.string().optional()` allows `model` to be absent but
requires a string when present.  No other constraint is imposed. -/
def validateRequest (r : RawRequest) : Option SynthesisRequest :=
  match r.text with
  | some (.str s) =>
      match r.model with
      | none => some { text := s, model := none }
      | some (.str m) => some { text := s, model := some m }
      | some _ => none
  | _ => none

/-- An HTTP response as produced by the `OPTIONS` export. -/
structure HttpResponse where
  status : Nat
  body : Option String
  headers : List (String × String)
deriving Repr, DecidableEq

/-- The `OPTIONS` export (route.ts lines 6-15): a 204 response with a
null body and the three CORS headers. -/
def OPTIONS : HttpResponse :=
  { status := 204
    body := none
    headers :=
      [ ("Access-Control-Allow-Origin", "*"),
        ("Access-Control-Allow-Methods", "GET, POST, OPTIONS"),
        ("Access-Control-Allow-Headers", "Content-Type") ] }

/-- Claim C1: for every provider response yielding audio bytes `b`,
the success result's content list contains (as its first block) an
audio block whose data field is the base64 encoding of `b` and whose
mimeType field is "audio/mpeg". -/
theorem audio_block_base64_of_bytes (text : String) (model : Option String)
    (provider : String → String → ProviderOutcome) (upload : UploadOutcome)
    (b : List Nat) (h : provider text (outboundModel model) = .returns (some b)) :
    (synthesizeSpeech text model provider upload).content.head? =
      some (.audio (base64Encode b) "audio/mpeg") := by
  unfold synthesizeSpeech
  rw [h]
  simp only [synthAfterProvider, successContent]
  split <;> rfl

/-- Witness for C1 at concrete bytes `[0, 1, 2]`. -/
theorem audio_block_base64_of_bytes_witness :
    (synthesizeSpeech "hi" none (fun _ _ => .returns (some [0, 1, 2])) .throws).content.head? =
      some (.audio (base64Encode [0, 1, 2]) "audio/mpeg") :=
  audio_block_base64_of_bytes "hi" none (fun _ _ => .returns (some [0, 1, 2])) .throws
    [0, 1, 2] rfl

/-- Counterexample to C2 as stated: an error whose `message` field is
present but is the empty string is falsy in JavaScript, so the handler
returns the default message alone, not the default message plus the
(empty) message. -/
theorem message_field_empty_counterexample :
    (synthesizeSpeech "hi" none
        (fun _ _ => .throws { response := none, request := false, message := some "" })
        .throws) =
      { content := [ .text "## Error\n\nFailed to synthesize speech" ] } ∧
    (synthesizeSpeech "hi" none
        (fun _ _ => .throws { response := none, request := false, message := some "" })
        .throws) ≠
      { content := [ .text "## Error\n\nFailed to synthesize speech: " ] } :=
  ⟨rfl, by decide⟩

/-- Claim C2 (amended): every error thrown by the provider call is
caught and converted into a failure result (never re-raised), whose
message is chosen in priority order: response field present (default
plus status and body message, the JSON-serialized body standing in for
an absent or empty body message); else a truthy request field (default
plus "No response received"); else a non-empty message field (default
plus that message); else the default message alone. -/
theorem provider_error_caught_message_priority (text : String) (model : Option String)
    (provider : String → String → ProviderOutcome) (upload : UploadOutcome)
    (e : ApiError) (h : provider text (outboundModel model) = .throws e) :
    synthesizeSpeech text model provider upload =
      { content := [ .text ("## Error\n\n" ++
          (match e.response with
           | some r =>
               "Failed to synthesize speech: " ++ toString r.status ++ " - " ++
                 jsOr r.dataMessage r.dataStringified
           | none =>
               if e.request then "Failed to synthesize speech: No response received"
               else
                 match e.message with
                 | some m =>
                     if m = "" then "Failed to synthesize speech"
                     else "Failed to synthesize speech: " ++ m
                 | none => "Failed to synthesize speech")) ] } := by
  unfold synthesizeSpeech
  rw [h]
  rfl

/-- Witness for C2 at a concrete request-shaped error. -/
theorem provider_error_caught_message_priority_witness :
    synthesizeSpeech "hi" none
        (fun _ _ => .throws { response := none, request := true, message := none })
        .throws =
      { content := [ .text "## Error\n\nFailed to synthesize speech: No response received" ] } :=
  provider_error_caught_message_priority "hi" none
    (fun _ _ => .throws { response := none, request := true, message := none }) .throws
    { response := none, request := true, message := none } rfl

/-- Claim C3: a provider error with response status 429 and body
message "rate limited" produces exactly the failure text
"## Error\n\nFailed to synthesize speech: 429 - rate limited". -/
theorem rate_limited_429_message :
    synthesizeSpeech "hello" none
      (fun _ _ => .throws
        { response := some
            { status := 429, dataMessage := some "rate limited",
              dataStringified := "\x7b\"message\":\"rate limited\"\x7d" },
          request := false, message := none })
      .throws =
      { content := [ .text "## Error\n\nFailed to synthesize speech: 429 - rate limited" ] } :=
  rfl

/-- Claim C4: when the provider call returns a response whose `result`
field is falsy, the handler returns exactly the failure text
"## Error\n\nDeepgram TTS error: No audio result from Deepgram.". -/
theorem no_audio_result_failure (text : String) (model : Option String)
    (provider : String → String → ProviderOutcome) (upload : UploadOutcome)
    (h : provider text (outboundModel model) = .returns none) :
    synthesizeSpeech text model provider upload =
      { content := [ .text "## Error\n\nDeepgram TTS error: No audio result from Deepgram." ] } := by
  unfold synthesizeSpeech
  rw [h]
  rfl

/-- Witness for C4. -/
theorem no_audio_result_failure_witness :
    synthesizeSpeech "hi" none (fun _ _ => .returns none) .throws =
      { content := [ .text "## Error\n\nDeepgram TTS error: No audio result from Deepgram." ] } :=
  no_audio_result_failure "hi" none (fun _ _ => .returns none) .throws rfl

/-- Counterexample to C5 as stated: an upload that succeeds returning
the url `""` does not put a "[Download Link]()" block in the content
(the `if (publicUrl)` truthiness check omits it). -/
theorem download_link_empty_url_counterexample :
    ContentBlock.text "[Download Link]()" ∉
      (synthesizeSpeech "hi" none (fun _ _ => .returns (some [1]))
        (.returns [ { data := some { url := "" } } ])).content := by
  decide

/-- Claim C5 (amended): on a successful synthesis, if the upload
succeeds returning a non-empty url `u`, the result's content is the
upload-failure content plus exactly one extra text block
"[Download Link](u)"; if the upload throws, the same success result is
returned minus only that block. -/
theorem download_link_present_iff_upload_url (text : String) (model : Option String)
    (provider : String → String → ProviderOutcome) (b : List Nat)
    (u : String) (rest : List UploadEntry)
    (h : provider text (outboundModel model) = .returns (some b)) (hu : u ≠ "") :
    (synthesizeSpeech text model provider
        (.returns ({ data := some { url := u } } :: rest))).content =
      (synthesizeSpeech text model provider .throws).content ++
        [ .text ("[Download Link](" ++ u ++ ")") ] := by
  unfold synthesizeSpeech
  rw [h]
  have h1 : publicUrl (.returns ({ data := some { url := u } } :: rest)) = u := by
    simp [publicUrl, jsOr, hu]
  simp [synthAfterProvider, successContent, h1, hu, publicUrl, jsOr]

/-- Witness for C5 at a concrete url. -/
theorem download_link_present_iff_upload_url_witness :
    (synthesizeSpeech "hi" none (fun _ _ => .returns (some [1]))
        (.returns [ { data := some { url := "https://x/y.mp3" } } ])).content =
      (synthesizeSpeech "hi" none (fun _ _ => .returns (some [1])) .throws).content ++
        [ .text "[Download Link](https://x/y.mp3)" ] :=
  download_link_present_iff_upload_url "hi" none (fun _ _ => .returns (some [1]))
    [1] "https://x/y.mp3" [] rfl (by decide)

/-- Claim C6: for every call with non-empty text and omitted model,
the outbound provider call is made with model "aura-2-thalia-en": the
model string sent is "aura-2-thalia-en" and the handler's result is
determined by the provider's response at that model. -/
theorem default_model_used (text : String)
    (provider : String → String → ProviderOutcome) (upload : UploadOutcome)
    (_h : text ≠ "") :
    outboundModel none = "aura-2-thalia-en" ∧
    synthesizeSpeech text none provider upload =
      synthAfterProvider text (provider text "aura-2-thalia-en") upload :=
  ⟨rfl, rfl⟩

/-- Witness for C6. -/
theorem default_model_used_witness :
    outboundModel none = "aura-2-thalia-en" ∧
    synthesizeSpeech "hi" none (fun _ _ => ProviderOutcome.returns none) .throws =
      synthAfterProvider "hi"
        ((fun _ _ => ProviderOutcome.returns none) "hi" "aura-2-thalia-en") .throws :=
  default_model_used "hi" (fun _ _ => ProviderOutcome.returns none) .throws (by decide)

/-- Claim C7: the OPTIONS export returns status 204 with an empty body
and exactly the three CORS headers, regardless of any other state. -/
theorem options_preflight_response :
    OPTIONS.status = 204 ∧ OPTIONS.body = none ∧
    OPTIONS.headers =
      [ ("Access-Control-Allow-Origin", "*"),
        ("Access-Control-Allow-Methods", "GET, POST, OPTIONS"),
        ("Access-Control-Allow-Headers", "Content-Type") ] :=
  ⟨rfl, rfl, rfl⟩

/-- Counterexample to C8 as stated: a request whose `text` is the
empty string does satisfy the schema (`z.string()` imposes no
non-emptiness constraint) and is processed as a valid request. -/
theorem empty_text_accepted :
    validateRequest { text := some (.str ""), model := none } =
      some { text := "", model := none } :=
  rfl

/-- Claim C8 (amended): the schema requires `text` to be present and a
string (any string, the empty string included) and `model`, when
present, to be a string; it does not require `text` to be non-empty. -/
theorem schema_accepts_iff_string_fields (r : RawRequest) :
    (validateRequest r).isSome ↔
      ((∃ s, r.text = some (.str s)) ∧
        (r.model = none ∨ ∃ m, r.model = some (.str m))) := by
  obtain ⟨t, m⟩ := r
  cases t with
  | none => simp [validateRequest]
  | some p =>
    cases p <;>
      (cases m with
       | none => simp [validateRequest]
       | some q => cases q <;> simp [validateRequest])

/-- Witness for C8 at a concrete request. -/
theorem schema_accepts_iff_string_fields_witness :
    (validateRequest { text := some (.str "hello"), model := none }).isSome ↔
      ((∃ s, (some (JsonPrim.str "hello") : Option JsonPrim) = some (.str s)) ∧
        (((none : Option JsonPrim) = none) ∨
          ∃ m, (none : Option JsonPrim) = some (.str m))) :=
  schema_accepts_iff_string_fields { text := some (.str "hello"), model := none }

/-- Claim C9: on every successful synthesis the content list begins
with the audio block followed immediately by the confirmation text
block "Successfully synthesized speech! Referenced text: " plus the
input text, whatever the upload outcome was. -/
theorem success_content_prefix (text : String) (model : Option String)
    (provider : String → String → ProviderOutcome) (upload : UploadOutcome)
    (b : List Nat) (h : provider text (outboundModel model) = .returns (some b)) :
    (synthesizeSpeech text model provider upload).content.take 2 =
      [ .audio (base64Encode b) "audio/mpeg",
        .text ("Successfully synthesized speech! Referenced text: " ++ text) ] := by
  unfold synthesizeSpeech
  rw [h]
  simp only [synthAfterProvider, successContent]
  split <;> rfl

/-- Witness for C9. -/
theorem success_content_prefix_witness :
    (synthesizeSpeech "hi" none (fun _ _ => .returns (some [0, 1, 2])) .throws).content.take 2 =
      [ .audio (base64Encode [0, 1, 2]) "audio/mpeg",
        .text "Successfully synthesized speech! Referenced text: hi" ] :=
  success_content_prefix "hi" none (fun _ _ => .returns (some [0, 1, 2])) .throws
    [0, 1, 2] rfl

/-- Claim C10: when the upload call returns but its first entry
carries no url (entry or data absent, or url empty), the handler
returns exactly the same result as when the upload throws. -/
theorem upload_missing_url_matches_throw (text : String) (model : Option String)
    (provider : String → String → ProviderOutcome) (b : List Nat)
    (entries : List UploadEntry)
    (h : provider text (outboundModel model) = .returns (some b))
    (hu : (entries.head?.bind (·.data)).map (·.url) = none ∨
          (entries.head?.bind (·.data)).map (·.url) = some "") :
    synthesizeSpeech text model provider (.returns entries) =
      synthesizeSpeech text model provider .throws := by
  unfold synthesizeSpeech
  rw [h]
  have hp : publicUrl (.returns entries) = "" := by
    show jsOr ((entries.head?.bind (·.data)).map (·.url)) "" = ""
    rcases hu with hu | hu <;> rw [hu] <;> rfl
  have hc : successContent text b (.returns entries) = successContent text b .throws := by
    unfold successContent
    rw [hp]
    rfl
  simp [synthAfterProvider, hc]

/-- Witness for C10 with an empty upload result array. -/
theorem upload_missing_url_matches_throw_witness :
    synthesizeSpeech "hi" none (fun _ _ => .returns (some [1])) (.returns []) =
      synthesizeSpeech "hi" none (fun _ _ => .returns (some [1])) .throws :=
  upload_missing_url_matches_throw "hi" none (fun _ _ => .returns (some [1]))
    [1] [] rfl (Or.inl rfl)

end DeepgramMcp
